import Mathlib

/-!
Verification of the attestation data model and command dispatch layer of the
csv-rs userspace library (HYGON CSV confidential computing).

Bytes are modelled as `Nat` (values < 256 in practice; all operations used by
the code — XOR, concatenation, comparison — agree with `u8` semantics on such
values).  Fixed-size Rust arrays are modelled as `List Nat`; 32-bit machine
integers as `Nat` with explicit `% 2^32` where overflow matters.  The external
crypto collaborators (openssl HMAC, ECDSA) are passed in as function
parameters, matching the capability interface of the design; the platform
digest algorithm (SM3) is implemented concretely for fixture-level claims.
-/

namespace Csv

/-- Modelled from the spec: the error kinds of `crate::error::Error` (§7):
digest failure, cryptographic mismatch, malformed key, serialization failure,
firmware-reported transport error.  The enum itself lives outside the excerpt. -/
inductive Error where
  | DigestError
  | BadSignature
  | KeyError
  | IoError
  | TransportError
deriving DecidableEq, Repr

deriving instance DecidableEq for Except

/-- The 4-byte little-endian encoding of a 32-bit value: `u32::to_le_bytes`. -/
def toLeBytes4 (x : Nat) : List Nat :=
  [x % 256, x / 256 % 256, x / 65536 % 256, x / 16777216 % 256]

/-- The loop body of `xor_with_anonce`: XOR each byte of `data`, starting at
absolute index `i`, with byte `index % 4` of the little-endian encoding of
`anonce`.  Rust source iterates `data.iter_mut().enumerate()` and does
`*item ^= anonce_array[index % 4]`. -/
def xorStream (anonce : Nat) : Nat → List Nat → List Nat
  | _, [] => []
  | i, b :: rest => (b ^^^ (toLeBytes4 anonce).getD (i % 4) 0) :: xorStream anonce (i + 1) rest

/-- `xor_with_anonce(data, anonce)` from `src/api/guest/types.rs`: XOR `data`
in place with the repeating 4-byte little-endian keystream of `anonce`. -/
def xor_with_anonce (data : List Nat) (anonce : Nat) : List Nat :=
  xorStream anonce 0 data

/-- `ReportSigner` from `src/api/guest/types.rs`: the obfuscated PEK
certificate (2084 bytes), serial number (64 bytes), reserved region (32 bytes)
and HMAC tag (32 bytes).  Lengths are not needed by the verification logic, so
the fields are plain byte lists. -/
structure ReportSigner where
  pek_cert : List Nat
  sn : List Nat
  reserved : List Nat
  mac : List Nat
deriving DecidableEq, Repr

/-- `ReportSigner::restore`: de-obfuscate `pek_cert` and `sn` with the anonce
keystream and zero the reserved region. -/
def ReportSigner.restore (s : ReportSigner) (anonce : Nat) : ReportSigner :=
  { s with
    pek_cert := xor_with_anonce s.pek_cert anonce
    sn := xor_with_anonce s.sn anonce
    reserved := List.replicate s.reserved.length 0 }

/-- `ReportSigner::verify(&mut self, input_mnonce, mnonce, anonce)`.  The
openssl SM3-HMAC primitive is a parameter `hmac key message` (the
`hmac(key_bytes, bytes) -> tag` capability of the design, total as a mathematical function).
Rust mutates `self`; here the post-state is returned alongside the result:
on an early error return the state is unchanged. -/
def ReportSigner.verify (hmac : List Nat → List Nat → List Nat) (s : ReportSigner)
    (input_mnonce mnonce : List Nat) (anonce : Nat) :
    Except Error Unit × ReportSigner :=
  if xor_with_anonce mnonce anonce ≠ input_mnonce then
    (Except.error Error.BadSignature, s)
  else if hmac (xor_with_anonce mnonce anonce) (s.pek_cert ++ s.sn ++ s.reserved) ≠ s.mac then
    (Except.error Error.BadSignature, s)
  else
    (Except.ok (), s.restore anonce)

/-- Spec-side description of the keystream (§4.3 step 1 / claim wording):
byte `i` of the result is byte `i mod 4` of the little-endian encoding of
`anonce`, XORed into byte `i` of the input. -/
def specXorWithAnonce (data : List Nat) (anonce : Nat) : List Nat :=
  (List.range data.length).map fun i =>
    data.getD i 0 ^^^ anonce / 2 ^ (8 * (i % 4)) % 256

theorem xorStream_length (anonce i : Nat) (l : List Nat) :
    (xorStream anonce i l).length = l.length := by
  induction l generalizing i with
  | nil => rfl
  | cons b rest ih => simp [xorStream, ih]

theorem toLeBytes4_getD (a k : Nat) (hk : k < 4) :
    (toLeBytes4 a).getD k 0 = a / 2 ^ (8 * (k % 4)) % 256 := by
  interval_cases k <;> simp [toLeBytes4]

theorem xorStream_getD (anonce : Nat) (l : List Nat) (i j : Nat) (hj : j < l.length) :
    (xorStream anonce i l).getD j 0 =
      l.getD j 0 ^^^ (toLeBytes4 anonce).getD ((i + j) % 4) 0 := by
  induction l generalizing i j with
  | nil => simp at hj
  | cons b rest ih =>
    cases j with
    | zero => simp [xorStream]
    | succ j =>
      simp only [xorStream, List.getD_cons_succ]
      rw [ih (i + 1) j (by simpa using hj)]
      have h4 : i + 1 + j = i + (j + 1) := by omega
      rw [h4]

theorem xor_with_anonce_eq_spec (data : List Nat) (anonce : Nat) :
    xor_with_anonce data anonce = specXorWithAnonce data anonce := by
  apply List.ext_getElem
  · simp [xor_with_anonce, specXorWithAnonce, xorStream_length]
  · intro i h1 h2
    have hlen : i < data.length := by
      simpa [xor_with_anonce, xorStream_length] using h1
    have hx : (xor_with_anonce data anonce).getD i 0 =
        data.getD i 0 ^^^ (toLeBytes4 anonce).getD (i % 4) 0 := by
      simpa [xor_with_anonce] using xorStream_getD anonce data 0 i hlen
    have ht := toLeBytes4_getD anonce (i % 4) (Nat.mod_lt _ (by norm_num))
    have hg : (xor_with_anonce data anonce)[i] = (xor_with_anonce data anonce).getD i 0 :=
      (List.getD_eq_getElem _ _ h1).symm
    rw [hg, hx, ht]
    simp [specXorWithAnonce, List.getD_eq_getElem _ _ hlen]

theorem xorStream_involutive (a i : Nat) (l : List Nat) :
    xorStream a i (xorStream a i l) = l := by
  induction l generalizing i with
  | nil => rfl
  | cons b rest ih =>
      simp [xorStream, ih, Nat.xor_assoc, Nat.xor_self, Nat.xor_zero]

theorem xor_with_anonce_involutive (l : List Nat) (a : Nat) :
    xor_with_anonce (xor_with_anonce l a) a = l :=
  xorStream_involutive a 0 l

/-- Shared helper: when `verify` reports success, the post-state is exactly
`restore` of the pre-state. -/
theorem verify_ok_post (hmac : List Nat → List Nat → List Nat) (s : ReportSigner)
    (input_mnonce mnonce : List Nat) (anonce : Nat)
    (h : (ReportSigner.verify hmac s input_mnonce mnonce anonce).1 = Except.ok ()) :
    (ReportSigner.verify hmac s input_mnonce mnonce anonce).2 = s.restore anonce := by
  unfold ReportSigner.verify at h ⊢
  split_ifs at h ⊢ with h1 h2 <;> simp_all

/-- C1: `ReportSigner::verify` returns `BadSignature` exactly when the nonce
recomputed by XOR-masking `mnonce` with the anonce keystream differs from
`input_mnonce`, or the HMAC keyed by the recomputed nonce over
`pek_cert ∥ sn ∥ reserved` (still obfuscated) differs from the stored `mac`;
it returns `Ok` exactly when both comparisons succeed. -/
theorem verify_result_characterization (hmac : List Nat → List Nat → List Nat)
    (s : ReportSigner) (input_mnonce mnonce : List Nat) (anonce : Nat) :
    ((ReportSigner.verify hmac s input_mnonce mnonce anonce).1 =
        Except.error Error.BadSignature ↔
      xor_with_anonce mnonce anonce ≠ input_mnonce ∨
        hmac (xor_with_anonce mnonce anonce) (s.pek_cert ++ s.sn ++ s.reserved) ≠ s.mac) ∧
    ((ReportSigner.verify hmac s input_mnonce mnonce anonce).1 = Except.ok () ↔
      (xor_with_anonce mnonce anonce = input_mnonce ∧
        hmac (xor_with_anonce mnonce anonce) (s.pek_cert ++ s.sn ++ s.reserved) = s.mac)) := by
  unfold ReportSigner.verify
  split_ifs with h1 h2 <;> simp_all

/-- C10: whenever `ReportSigner::verify` returns an error, the evidence is
unchanged — `pek_cert`, `sn`, `reserved` and `mac` all keep their pre-call
values (de-obfuscation happens only after both comparisons succeed). -/
theorem verify_error_state_unchanged (hmac : List Nat → List Nat → List Nat)
    (s : ReportSigner) (input_mnonce mnonce : List Nat) (anonce : Nat) (e : Error)
    (h : (ReportSigner.verify hmac s input_mnonce mnonce anonce).1 = Except.error e) :
    (ReportSigner.verify hmac s input_mnonce mnonce anonce).2 = s := by
  unfold ReportSigner.verify at h ⊢
  split_ifs at h ⊢ with h1 h2 <;> simp_all

theorem verify_error_state_unchanged_witness :
    (ReportSigner.verify (fun _ _ => [1]) ⟨[], [], [], []⟩ [] [] 0).2 =
      ⟨[], [], [], []⟩ :=
  verify_error_state_unchanged (fun _ _ => [1]) ⟨[], [], [], []⟩ [] [] 0
    Error.BadSignature (by rfl)

/-- C2: on success the post-state has `pek_cert` and `sn` XORed byte-wise with
the keystream whose byte `i` is byte `i mod 4` of the little-endian encoding
of `anonce`, the reserved field all zeros, and `mac` unchanged. -/
theorem verify_success_post_state (hmac : List Nat → List Nat → List Nat)
    (s : ReportSigner) (input_mnonce mnonce : List Nat) (anonce : Nat)
    (h : (ReportSigner.verify hmac s input_mnonce mnonce anonce).1 = Except.ok ()) :
    (ReportSigner.verify hmac s input_mnonce mnonce anonce).2 =
      { pek_cert := specXorWithAnonce s.pek_cert anonce
        sn := specXorWithAnonce s.sn anonce
        reserved := List.replicate s.reserved.length 0
        mac := s.mac } := by
  rw [verify_ok_post hmac s input_mnonce mnonce anonce h]
  simp [ReportSigner.restore, xor_with_anonce_eq_spec]

theorem verify_success_post_state_witness :
    (ReportSigner.verify (fun _ _ => []) ⟨[2, 3], [5], [7], []⟩ [] [] 1).2 =
      { pek_cert := specXorWithAnonce [2, 3] 1
        sn := specXorWithAnonce [5] 1
        reserved := List.replicate 1 0
        mac := [] } := by
  have h := verify_success_post_state (fun _ _ => []) ⟨[2, 3], [5], [7], []⟩ [] [] 1 (by rfl)
  simpa using h

/-- HMAC oracle for the C8 counterexample: matches the stored MAC only on the
original obfuscated contents. -/
def hmacCex : List Nat → List Nat → List Nat :=
  fun _ msg => if msg = [1] then [0] else [7]

/-- Evidence state for the C8 counterexample. -/
def signerCex : ReportSigner := ⟨[1], [], [], [0]⟩

/-- C8 counterexample: a first `verify` call succeeds, but the second call
with the same arguments fails the MAC comparison over the now-restored fields
and returns `BadSignature` leaving the state untouched — it does not XOR the
keystream back into `pek_cert`. -/
theorem verify_second_call_not_reobfuscating :
    (ReportSigner.verify hmacCex signerCex [] [] 1).1 = Except.ok () ∧
    (ReportSigner.verify hmacCex
        ((ReportSigner.verify hmacCex signerCex [] [] 1).2) [] [] 1).1 =
      Except.error Error.BadSignature ∧
    (ReportSigner.verify hmacCex
        ((ReportSigner.verify hmacCex signerCex [] [] 1).2) [] [] 1).2 =
      (ReportSigner.verify hmacCex signerCex [] [] 1).2 ∧
    ((ReportSigner.verify hmacCex
        ((ReportSigner.verify hmacCex signerCex [] [] 1).2) [] [] 1).2).pek_cert ≠
      xor_with_anonce
        ((ReportSigner.verify hmacCex signerCex [] [] 1).2).pek_cert 1 := by
  exact ⟨rfl, rfl, rfl, by decide⟩

/-- C8 (amended): when the first call succeeds and a second call with the same
arguments also succeeds, that second call XORs the anonce keystream back into
the already-restored `pek_cert` and `sn`, returning them to their original
obfuscated values. -/
theorem verify_second_success_reobfuscates (hmac : List Nat → List Nat → List Nat)
    (s : ReportSigner) (input_mnonce mnonce : List Nat) (anonce : Nat)
    (h1 : (ReportSigner.verify hmac s input_mnonce mnonce anonce).1 = Except.ok ())
    (h2 : (ReportSigner.verify hmac
        ((ReportSigner.verify hmac s input_mnonce mnonce anonce).2)
        input_mnonce mnonce anonce).1 = Except.ok ()) :
    ((ReportSigner.verify hmac
        ((ReportSigner.verify hmac s input_mnonce mnonce anonce).2)
        input_mnonce mnonce anonce).2).pek_cert =
      xor_with_anonce
        (((ReportSigner.verify hmac s input_mnonce mnonce anonce).2).pek_cert) anonce ∧
    ((ReportSigner.verify hmac
        ((ReportSigner.verify hmac s input_mnonce mnonce anonce).2)
        input_mnonce mnonce anonce).2).sn =
      xor_with_anonce
        (((ReportSigner.verify hmac s input_mnonce mnonce anonce).2).sn) anonce ∧
    ((ReportSigner.verify hmac
        ((ReportSigner.verify hmac s input_mnonce mnonce anonce).2)
        input_mnonce mnonce anonce).2).pek_cert = s.pek_cert ∧
    ((ReportSigner.verify hmac
        ((ReportSigner.verify hmac s input_mnonce mnonce anonce).2)
        input_mnonce mnonce anonce).2).sn = s.sn := by
  rw [verify_ok_post _ _ _ _ _ h2, verify_ok_post _ _ _ _ _ h1]
  simp [ReportSigner.restore, xor_with_anonce_involutive]

theorem verify_second_success_reobfuscates_witness :
    ((ReportSigner.verify (fun _ _ => [0])
        ((ReportSigner.verify (fun _ _ => [0]) ⟨[1], [], [], [0]⟩ [] [] 1).2)
        [] [] 1).2).pek_cert =
      xor_with_anonce
        (((ReportSigner.verify (fun _ _ => [0]) ⟨[1], [], [], [0]⟩ [] [] 1).2).pek_cert) 1 ∧
    ((ReportSigner.verify (fun _ _ => [0])
        ((ReportSigner.verify (fun _ _ => [0]) ⟨[1], [], [], [0]⟩ [] [] 1).2)
        [] [] 1).2).pek_cert = [1] := by
  have h := verify_second_success_reobfuscates (fun _ _ => [0]) ⟨[1], [], [], [0]⟩ [] [] 1
    (by rfl) (by rfl)
  exact ⟨h.1, h.2.2.1⟩

/-- `GuestPolicy` from `src/api/guest/types.rs`: a 32-bit packed policy word
(`bitfield! { pub struct GuestPolicy(u32); ... }`). -/
structure GuestPolicy where
  val : Nat
deriving DecidableEq, Repr

/-- The bit-range getter generated by the `bitfield!` macro for a field
declared `msb, lsb`: shift right by `lsb`, mask to `msb - lsb + 1` bits. -/
def bitRange (w msb lsb : Nat) : Nat :=
  w >>> lsb &&& (2 ^ (msb - lsb + 1) - 1)

def GuestPolicy.nodbg (p : GuestPolicy) : Nat := bitRange p.val 0 0

def GuestPolicy.noks (p : GuestPolicy) : Nat := bitRange p.val 1 1

def GuestPolicy.es (p : GuestPolicy) : Nat := bitRange p.val 2 2

def GuestPolicy.nosend (p : GuestPolicy) : Nat := bitRange p.val 3 3

def GuestPolicy.domain (p : GuestPolicy) : Nat := bitRange p.val 4 4

def GuestPolicy.csv (p : GuestPolicy) : Nat := bitRange p.val 5 5

def GuestPolicy.csv3 (p : GuestPolicy) : Nat := bitRange p.val 6 6

def GuestPolicy.asid_reuse (p : GuestPolicy) : Nat := bitRange p.val 7 7

def GuestPolicy.hsk_version (p : GuestPolicy) : Nat := bitRange p.val 11 8

def GuestPolicy.cek_version (p : GuestPolicy) : Nat := bitRange p.val 15 12

def GuestPolicy.api_major (p : GuestPolicy) : Nat := bitRange p.val 23 16

def GuestPolicy.api_minor (p : GuestPolicy) : Nat := bitRange p.val 31 24

/-- `GuestPolicy::xor`: XOR the policy word with a session anonce
(`Self(self.0 ^ anonce)`). -/
def GuestPolicy.xorAnonce (p : GuestPolicy) (anonce : Nat) : GuestPolicy :=
  ⟨p.val ^^^ anonce⟩

theorem bitRange_eq_div_mod (w msb lsb : Nat) :
    bitRange w msb lsb = w / 2 ^ lsb % 2 ^ (msb - lsb + 1) := by
  simp [bitRange, Nat.shiftRight_eq_div_pow, Nat.and_pow_two_sub_one_eq_mod]

/-- C5: the raw word round-trips through `GuestPolicy`, each accessor returns
exactly the value of its declared bit range (`field ⟨w⟩ = w / 2^lo % 2^len`),
and each accessor is independent of all other bits: for an arbitrary word
decomposed into low bits `x`, declared-range bits `y` and high bits `z`, the
accessor returns the contribution of `y` regardless of `x` and `z`. -/
theorem guestPolicy_field_extraction (w x y z : Nat) :
    GuestPolicy.val ⟨w⟩ = w ∧
    GuestPolicy.nodbg ⟨w⟩ = w % 2 ∧
    GuestPolicy.noks ⟨w⟩ = w / 2 % 2 ∧
    GuestPolicy.es ⟨w⟩ = w / 2 ^ 2 % 2 ∧
    GuestPolicy.nosend ⟨w⟩ = w / 2 ^ 3 % 2 ∧
    GuestPolicy.domain ⟨w⟩ = w / 2 ^ 4 % 2 ∧
    GuestPolicy.csv ⟨w⟩ = w / 2 ^ 5 % 2 ∧
    GuestPolicy.csv3 ⟨w⟩ = w / 2 ^ 6 % 2 ∧
    GuestPolicy.asid_reuse ⟨w⟩ = w / 2 ^ 7 % 2 ∧
    GuestPolicy.hsk_version ⟨w⟩ = w / 2 ^ 8 % 2 ^ 4 ∧
    GuestPolicy.cek_version ⟨w⟩ = w / 2 ^ 12 % 2 ^ 4 ∧
    GuestPolicy.api_major ⟨w⟩ = w / 2 ^ 16 % 2 ^ 8 ∧
    GuestPolicy.api_minor ⟨w⟩ = w / 2 ^ 24 % 2 ^ 8 ∧
    GuestPolicy.nodbg ⟨x % 2 ^ 0 + 2 ^ 0 * (y % 2) + 2 ^ 1 * z⟩ = y % 2 ∧
    GuestPolicy.noks ⟨x % 2 ^ 1 + 2 ^ 1 * (y % 2) + 2 ^ 2 * z⟩ = y % 2 ∧
    GuestPolicy.es ⟨x % 2 ^ 2 + 2 ^ 2 * (y % 2) + 2 ^ 3 * z⟩ = y % 2 ∧
    GuestPolicy.nosend ⟨x % 2 ^ 3 + 2 ^ 3 * (y % 2) + 2 ^ 4 * z⟩ = y % 2 ∧
    GuestPolicy.domain ⟨x % 2 ^ 4 + 2 ^ 4 * (y % 2) + 2 ^ 5 * z⟩ = y % 2 ∧
    GuestPolicy.csv ⟨x % 2 ^ 5 + 2 ^ 5 * (y % 2) + 2 ^ 6 * z⟩ = y % 2 ∧
    GuestPolicy.csv3 ⟨x % 2 ^ 6 + 2 ^ 6 * (y % 2) + 2 ^ 7 * z⟩ = y % 2 ∧
    GuestPolicy.asid_reuse ⟨x % 2 ^ 7 + 2 ^ 7 * (y % 2) + 2 ^ 8 * z⟩ = y % 2 ∧
    GuestPolicy.hsk_version ⟨x % 2 ^ 8 + 2 ^ 8 * (y % 2 ^ 4) + 2 ^ 12 * z⟩ = y % 2 ^ 4 ∧
    GuestPolicy.cek_version ⟨x % 2 ^ 12 + 2 ^ 12 * (y % 2 ^ 4) + 2 ^ 16 * z⟩ = y % 2 ^ 4 ∧
    GuestPolicy.api_major ⟨x % 2 ^ 16 + 2 ^ 16 * (y % 2 ^ 8) + 2 ^ 24 * z⟩ = y % 2 ^ 8 ∧
    GuestPolicy.api_minor ⟨x % 2 ^ 24 + 2 ^ 24 * (y % 2 ^ 8) + 2 ^ 32 * z⟩ = y % 2 ^ 8 := by
  refine ⟨rfl, ?_, ?_, ?_, ?_, ?_, ?_, ?_, ?_, ?_, ?_, ?_, ?_, ?_, ?_, ?_, ?_, ?_, ?_, ?_,
    ?_, ?_, ?_, ?_, ?_⟩ <;>
    simp only [GuestPolicy.nodbg, GuestPolicy.noks, GuestPolicy.es, GuestPolicy.nosend,
      GuestPolicy.domain, GuestPolicy.csv, GuestPolicy.csv3, GuestPolicy.asid_reuse,
      GuestPolicy.hsk_version, GuestPolicy.cek_version, GuestPolicy.api_major,
      GuestPolicy.api_minor, bitRange_eq_div_mod] <;>
    omega

/-- `ReportReq` from `src/api/guest/types.rs`: guest data (64 bytes), mnonce
(16 bytes), and the SM3 digest (32 bytes) binding them. -/
structure ReportReq where
  data : List Nat
  mnonce : List Nat
  hash : List Nat
deriving DecidableEq, Repr

/-- `ReportReq::new(data, mnonce)`.  Starts from `Self::default()` (all-zero
buffers), overwrites `data` when supplied and `mnonce` always, then
`calculate_hash` digests `data ∥ mnonce` with the platform digest (SM3) and
stores the 32-byte result.  The digest primitive is the parameter `hashFn`
(`none` models an openssl-level failure, which `?`-propagates). -/
def ReportReq.new (hashFn : List Nat → Option (List Nat))
    (data : Option (List Nat)) (mnonce : List Nat) : Except Error ReportReq :=
  let d := data.getD (List.replicate 64 0)
  match hashFn (d ++ mnonce) with
  | none => Except.error Error.DigestError
  | some h => Except.ok { data := d, mnonce := mnonce, hash := h }

/-- C4: `ReportReq::new` returns a request whose `data` is the supplied buffer
(or all zeros when absent), whose `mnonce` is the supplied mnonce, and whose
`hash` is the platform digest of `data ∥ mnonce`; it errs exactly when the
digest primitive fails. -/
theorem reportReq_new_characterization (hashFn : List Nat → Option (List Nat))
    (data : Option (List Nat)) (mnonce : List Nat) :
    (∀ h, hashFn (data.getD (List.replicate 64 0) ++ mnonce) = some h →
      ReportReq.new hashFn data mnonce =
        Except.ok { data := data.getD (List.replicate 64 0), mnonce := mnonce, hash := h }) ∧
    (∀ e, ReportReq.new hashFn data mnonce = Except.error e →
      hashFn (data.getD (List.replicate 64 0) ++ mnonce) = none ∧
        e = Error.DigestError) := by
  constructor
  · intro hv hh
    simp only [ReportReq.new]
    rw [hh]
  · intro e he
    cases h : hashFn (data.getD (List.replicate 64 0) ++ mnonce) with
    | none => simp_all [ReportReq.new]
    | some v => simp_all [ReportReq.new]

theorem reportReq_new_characterization_witness :
    ReportReq.new (fun _ => some [1, 2]) none [9] =
      Except.ok { data := List.replicate 64 0, mnonce := [9], hash := [1, 2] } :=
  (reportReq_new_characterization (fun _ => some [1, 2]) none [9]).1 [1, 2] rfl

/-- The logical operations of the `impl_const_id!` table in
`src/api/platform/ioctl.rs` (enum ordinals from the Linux kernel
`include/uapi/linux/psp-sev.h`). -/
inductive CmdTag where
  | PlatformReset
  | PlatformStatus
  | PekGen
  | PekCsr
  | PdhGen
  | PdhCertExport
  | PekCertImport
  | GetId
deriving DecidableEq, Repr

/-- The `Id` trait constant bound to each payload type by `impl_const_id!`:
`PlatformReset = 0x0, PlatformStatus = 0x1, PekGen = 0x2, PekCsr = 0x3,
PdhGen = 0x4, PdhCertExport = 0x5, PekCertImport = 0x6, GetId = 0x8`. -/
def cmdId : CmdTag → Nat
  | CmdTag.PlatformReset => 0x0
  | CmdTag.PlatformStatus => 0x1
  | CmdTag.PekGen => 0x2
  | CmdTag.PekCsr => 0x3
  | CmdTag.PdhGen => 0x4
  | CmdTag.PdhCertExport => 0x5
  | CmdTag.PekCertImport => 0x6
  | CmdTag.GetId => 0x8

/-- `Command<T>` from `src/api/platform/ioctl.rs`: opcode, payload address,
error slot.  The payload address (`subcmd as *mut T as u64` resp.
`*const T as u64`) is modelled as a `Nat` parameter, since addresses are
opaque to this layer. -/
structure Command where
  code : Nat
  data : Nat
  error : Nat
deriving DecidableEq, Repr

/-- `Command::from_mut(subcmd)`: bind a mutable payload of type `T` at
address `addr`; the opcode is the type-level constant `T::ID`. -/
def Command.from_mut (t : CmdTag) (addr : Nat) : Command :=
  { code := cmdId t, data := addr, error := 0 }

/-- `Command::from(subcmd)`: bind an immutable payload (`from` is a Lean
keyword, hence the name `fromRef`); identical envelope to `from_mut`. -/
def Command.fromRef (t : CmdTag) (addr : Nat) : Command :=
  { code := cmdId t, data := addr, error := 0 }

/-- C7: for every payload type and address, both constructors produce an
envelope whose `code` is the opcode statically bound to the payload type
(0x3 for `PekCsr`, 0x1 for `PlatformStatus`), whose `data` is the payload
address, and whose `error` is zero; the two constructors agree, so the opcode
never varies by call site. -/
theorem command_envelope_characterization (t : CmdTag) (addr : Nat) :
    (Command.from_mut t addr).code = cmdId t ∧
    (Command.fromRef t addr).code = cmdId t ∧
    (Command.from_mut t addr).data = addr ∧
    (Command.fromRef t addr).data = addr ∧
    (Command.from_mut t addr).error = 0 ∧
    (Command.fromRef t addr).error = 0 ∧
    Command.fromRef t addr = Command.from_mut t addr ∧
    cmdId CmdTag.PekCsr = 0x3 ∧
    cmdId CmdTag.PlatformStatus = 0x1 :=
  ⟨rfl, rfl, rfl, rfl, rfl, rfl, rfl, rfl, rfl⟩

/-- Size of `Body` under `repr(C)`: 32+16+16+64+16+32+4 bytes of `u8` arrays
plus the `u32` policy; no implicit padding (every field offset is aligned). -/
def sizeOfBody : Nat := 32 + 16 + 16 + 64 + 16 + 32 + 4

/-- Modelled from the spec: size of `AttestationReport` = `Body` + 4+4+4 +
signature-size bytes (§6).  The `ecdsa::Signature` type lives outside the
excerpt, so its size is a parameter. -/
def sizeOfAttestationReport (sigSize : Nat) : Nat := sizeOfBody + 4 + 4 + 4 + sigSize

/-- Size of `ReportSigner` under `repr(C)`: 2084 + 64 + 32 + 32 bytes. -/
def sizeOfReportSigner : Nat := 2084 + 64 + 32 + 32

/-- The compile-time length of the `reserved` padding field of `ReportRsp`:
`4096 - (size_of::<AttestationReport>() + size_of::<ReportSigner>())`.  In
Rust this is a `usize` expression evaluated at compile time; it only compiles
when the subtraction does not underflow. -/
def reportRspReservedLen (sigSize : Nat) : Nat :=
  4096 - (sizeOfAttestationReport sigSize + sizeOfReportSigner)

/-- Size of `ReportRsp` under `repr(C)`: report, signer evidence, padding. -/
def sizeOfReportRsp (sigSize : Nat) : Nat :=
  sizeOfAttestationReport sigSize + sizeOfReportSigner + reportRspReservedLen sigSize

/-- C6: whenever the compile-time padding computation is well defined (the
combined sizes fit in the page, which is what lets the Rust constant
expression and the `const_assert!` compile), the total size of `ReportRsp` is
exactly 4096 bytes — by construction, for every build. -/
theorem reportRsp_size_4096 (sigSize : Nat)
    (h : sizeOfAttestationReport sigSize + sizeOfReportSigner ≤ 4096) :
    sizeOfReportRsp sigSize = 4096 := by
  unfold sizeOfReportRsp reportRspReservedLen
  omega

/-- Witness at signature size 144 (two 72-byte ECDSA coordinate buffers, the
layout used by the crate): 336 + 2212 + 1548 = 4096. -/
theorem reportRsp_size_4096_witness :
    sizeOfAttestationReport 144 + sizeOfReportSigner ≤ 4096 ∧
    sizeOfReportRsp 144 = 4096 :=
  ⟨by decide, reportRsp_size_4096 144 (by decide)⟩

/-! The platform digest algorithm.  `ReportReq::calculate_hash` and the
HMAC in `ReportSigner::verify` both use openssl `MessageDigest::sm3()`.
Modelled from the spec: the digest collaborator is outside the excerpt
(consumed as `hash(bytes) -> 32-byte digest`, the mandated platform digest
algorithm), so SM3 (GB/T 32905-2016) is implemented here from its public
definition to settle the concrete fixture claim.  32-bit words are `Nat`
reduced mod `2^32`. -/

/-- Truncation to a 32-bit word. -/
def u32 (x : Nat) : Nat := x % 4294967296

/-- 32-bit left rotation. -/
def rotl32 (x n : Nat) : Nat := u32 (x <<< n ||| x >>> (32 - n))

/-- SM3 permutation P0. -/
def sm3P0 (x : Nat) : Nat := x ^^^ rotl32 x 9 ^^^ rotl32 x 17

/-- SM3 permutation P1. -/
def sm3P1 (x : Nat) : Nat := x ^^^ rotl32 x 15 ^^^ rotl32 x 23

/-- SM3 round constant. -/
def sm3T (j : Nat) : Nat := if j < 16 then 0x79cc4519 else 0x7a879d8a

/-- SM3 boolean function FF. -/
def sm3FF (j x y z : Nat) : Nat :=
  if j < 16 then x ^^^ y ^^^ z else x &&& y ||| x &&& z ||| y &&& z

/-- SM3 boolean function GG. -/
def sm3GG (j x y z : Nat) : Nat :=
  if j < 16 then x ^^^ y ^^^ z else x &&& y ||| (x ^^^ 4294967295) &&& z

/-- SM3 message expansion: the 68 words W of one block. -/
def sm3W (block : List Nat) : Array Nat :=
  (List.range 52).foldl
    (fun W j =>
      W.push (sm3P1 (W.getD j 0 ^^^ W.getD (j + 7) 0 ^^^ rotl32 (W.getD (j + 13) 0) 15)
        ^^^ rotl32 (W.getD (j + 3) 0) 7 ^^^ W.getD (j + 10) 0))
    block.toArray

/-- One SM3 compression round on state `[a, b, c, d, e, f, g, h]`. -/
def sm3Round (W : Array Nat) (V : List Nat) (j : Nat) : List Nat :=
  match V with
  | [a, b, c, d, e, f, g, h] =>
    let a12 := rotl32 a 12
    let ss1 := rotl32 (u32 (a12 + e + rotl32 (sm3T j) (j % 32))) 7
    let ss2 := ss1 ^^^ a12
    let tt1 := u32 (sm3FF j a b c + d + ss2 + (W.getD j 0 ^^^ W.getD (j + 4) 0))
    let tt2 := u32 (sm3GG j e f g + h + ss1 + W.getD j 0)
    [tt1, a, rotl32 b 9, c, sm3P0 tt2, e, rotl32 f 19, g]
  | other => other

/-- SM3 compression function: 64 rounds, then XOR into the chaining value. -/
def sm3CF (V block : List Nat) : List Nat :=
  let W := sm3W block
  List.zipWith (fun x y => x ^^^ y) V ((List.range 64).foldl (sm3Round W) V)

/-- Big-endian 4-byte encoding of a 32-bit word. -/
def beBytes4 (w : Nat) : List Nat :=
  [w / 16777216 % 256, w / 65536 % 256, w / 256 % 256, w % 256]

/-- Big-endian 8-byte encoding of a 64-bit value. -/
def beBytes8 (n : Nat) : List Nat :=
  beBytes4 (n / 4294967296) ++ beBytes4 n

/-- SM3 padding: 0x80, zeros to 56 mod 64, then the 64-bit bit length. -/
def sm3Pad (msg : List Nat) : List Nat :=
  msg ++ [0x80] ++ List.replicate ((56 + 64 - (msg.length + 1) % 64) % 64) 0
    ++ beBytes8 (8 * msg.length)

/-- Group bytes into big-endian 32-bit words. -/
def toBeWords : List Nat → List Nat
  | b0 :: b1 :: b2 :: b3 :: rest =>
      (b0 <<< 24 ||| b1 <<< 16 ||| b2 <<< 8 ||| b3) :: toBeWords rest
  | _ => []

/-- The SM3 initial chaining value. -/
def sm3IV : List Nat :=
  [0x7380166f, 0x4914b2b9, 0x172442d7, 0xda8a0600, 0xa96f30bc, 0x163138aa, 0xe38dee4d,
    0xb0fb0e4e]

/-- Iterate the compression function over 16-word blocks. -/
def sm3Blocks : List Nat → List Nat → List Nat
  | V, w0 :: w1 :: w2 :: w3 :: w4 :: w5 :: w6 :: w7 ::
      w8 :: w9 :: w10 :: w11 :: w12 :: w13 :: w14 :: w15 :: rest =>
      sm3Blocks
        (sm3CF V [w0, w1, w2, w3, w4, w5, w6, w7, w8, w9, w10, w11, w12, w13, w14, w15]) rest
  | V, _ => V

/-- The SM3 hash of a byte sequence: 32 digest bytes. -/
def sm3 (msg : List Nat) : List Nat :=
  (sm3Blocks sm3IV (toBeWords (sm3Pad msg))).foldr (fun w acc => beBytes4 w ++ acc) []

/-- The digest capability instantiated with SM3 (openssl `MessageDigest::sm3()`
never fails for a supported build, so the result is always `some`). -/
def sm3HashFn (msg : List Nat) : Option (List Nat) := some (sm3 msg)

/-- The 64-byte `data` fixture of `test_new` / `test_new_error`. -/
def fixtureData : List Nat := [
  103, 198, 105, 115, 81, 255, 74, 236, 41, 205, 186, 171, 242, 251, 227, 70, 124,
  194, 84, 248, 27, 232, 231, 141, 118, 90, 46, 99, 51, 159, 201, 154, 102, 50, 13,
  183, 49, 88, 163, 90, 37, 93, 5, 23, 88, 233, 94, 212, 171, 178, 205, 198, 155,
  180, 84, 17, 14, 130, 116, 65, 33, 61, 220, 135]

/-- The 16-byte `mnonce` fixture of `test_new`. -/
def fixtureMnonce : List Nat :=
  [112, 233, 62, 161, 65, 225, 252, 103, 62, 1, 126, 151, 234, 220, 107, 150]

/-- The `wrong_mnonce` of `test_new_error`: first byte zeroed. -/
def fixtureWrongMnonce : List Nat :=
  [0, 233, 62, 161, 65, 225, 252, 103, 62, 1, 126, 151, 234, 220, 107, 150]

/-- The expected 32-byte digest fixture of `test_new`. -/
def fixtureHash : List Nat := [
  19, 76, 8, 98, 33, 246, 247, 155, 28, 21, 245, 185, 118, 74, 162, 128, 82, 15, 160,
  233, 212, 130, 106, 177, 89, 6, 119, 243, 130, 21, 3, 153]

set_option maxRecDepth 1000000 in
/-- C9: on the `test_new` fixture, `ReportReq::new` succeeds and produces
exactly the expected request (in particular `hash` is the expected 32-byte
digest); with the first mnonce byte zeroed (`test_new_error`) the constructed
request is not structurally equal to the expected fixture request. -/
theorem reportReq_new_fixture :
    ReportReq.new sm3HashFn (some fixtureData) fixtureMnonce =
      Except.ok { data := fixtureData, mnonce := fixtureMnonce, hash := fixtureHash } ∧
    ReportReq.new sm3HashFn (some fixtureData) fixtureWrongMnonce ≠
      Except.ok { data := fixtureData, mnonce := fixtureMnonce, hash := fixtureHash } :=
  ⟨by decide, by decide⟩

/-- `Body` from `src/api/guest/types.rs`: the measurement body of an
attestation report (`repr(C)`: six byte arrays and the `u32` policy word). -/
structure Body where
  user_pubkey_digest : List Nat
  vm_id : List Nat
  vm_version : List Nat
  report_data : List Nat
  mnonce : List Nat
  measure : List Nat
  policy : GuestPolicy
deriving DecidableEq, Repr

/-- Modelled from the spec: `util::save` serializes a `repr(C)` value as its
raw bytes (§6 fixed-size binary layout, fields in declaration order, the
policy as a little-endian 32-bit word).  The `util` module is outside the
excerpt. -/
def Body.saveBytes (b : Body) : List Nat :=
  b.user_pubkey_digest ++ b.vm_id ++ b.vm_version ++ b.report_data ++ b.mnonce ++
    b.measure ++ toLeBytes4 b.policy.val

/-- Modelled from the spec: the raw ECDSA signature structure of the report
(§6: an ECDSA signature with fixed-size coordinate buffers).  The
`crypto::sig::ecdsa` module is outside the excerpt. -/
structure EcdsaSig where
  r : List Nat
  s : List Nat
deriving DecidableEq, Repr

/-- `AttestationReport` from `src/api/guest/types.rs`: body, signature usage
tag, signature algorithm tag, session anonce, ECDSA signature. -/
structure AttestationReport where
  body : Body
  sig_usage : Nat
  sig_algo : Nat
  anonce : Nat
  sig : EcdsaSig
deriving DecidableEq, Repr

/-- The `codicon::Encoder` impl for `AttestationReport` in
`src/api/guest/types.rs`: `writer.save(&self.body)` — the encoded message is
the bytes of `body` only. -/
def encodeReport (r : AttestationReport) : List Nat :=
  Body.saveBytes r.body

/-- Modelled from the spec: the certificate fields the report verification
reads — `cert.body.data.user_id` (length-prefixed by `uid_size`).  The
`certs::csv::Certificate` type is outside the excerpt. -/
structure CertData where
  user_id : List Nat
  uid_size : Nat
deriving DecidableEq, Repr

/-- Modelled from the spec: a leaf certificate, reduced to the data consulted
by `Verifiable for (&Certificate, &AttestationReport)`; public-key extraction
(`TryFrom<&Certificate> for PublicKey`) is the capability `keyOf`. -/
structure Certificate where
  data : CertData
deriving DecidableEq, Repr

/-- `Verifiable::verify` for `(&Certificate, &AttestationReport)` from
`src/api/guest/types.rs`, with the out-of-excerpt collaborators as
capabilities (spec §4.4, §6): `keyOf` extracts the leaf public key (fails
with `KeyError`), `sigBytesOf` encodes the raw ECDSA signature to bytes
(fails with `IoError`), and `ecdsaVerify key message context sig` is the
boolean ECDSA check, with the declared user-id prefix of the certificate passed as
authenticated context.  The message handed over is `encodeReport`, i.e. the
serialized `Body` only. -/
def verifyPair {K : Type} (keyOf : Certificate → Option K)
    (sigBytesOf : EcdsaSig → Option (List Nat))
    (ecdsaVerify : K → List Nat → List Nat → List Nat → Bool)
    (cert : Certificate) (r : AttestationReport) : Except Error Unit :=
  match keyOf cert with
  | none => Except.error Error.KeyError
  | some key =>
    match sigBytesOf r.sig with
    | none => Except.error Error.IoError
    | some sb =>
      if ecdsaVerify key (encodeReport r) (cert.data.user_id.take cert.data.uid_size) sb
      then Except.ok ()
      else Except.error Error.BadSignature

/-- C3: when key and signature extraction succeed, the report verification
succeeds exactly when the ECDSA check accepts the serialized bytes of the
`Body` field of the report alone — `sig_usage`, `sig_algo`, `anonce` and `sig` are
not part of the signed message — with the first `uid_size` bytes of the
`user_id` of the certificate as authenticated context; and the encoded message of
two reports with equal bodies is identical regardless of their other fields. -/
theorem verifyPair_signs_body_only {K : Type} (keyOf : Certificate → Option K)
    (sigBytesOf : EcdsaSig → Option (List Nat))
    (ecdsaVerify : K → List Nat → List Nat → List Nat → Bool)
    (cert : Certificate) (r : AttestationReport) (k : K) (sb : List Nat)
    (hk : keyOf cert = some k) (hs : sigBytesOf r.sig = some sb) :
    (verifyPair keyOf sigBytesOf ecdsaVerify cert r = Except.ok () ↔
      ecdsaVerify k
        (r.body.user_pubkey_digest ++ r.body.vm_id ++ r.body.vm_version ++
          r.body.report_data ++ r.body.mnonce ++ r.body.measure ++
          toLeBytes4 r.body.policy.val)
        (cert.data.user_id.take cert.data.uid_size) sb = true) ∧
    (∀ r2 : AttestationReport, r2.body = r.body → encodeReport r2 = encodeReport r) := by
  constructor
  · unfold verifyPair
    rw [hk, hs]
    cases hv : ecdsaVerify k (encodeReport r)
        (cert.data.user_id.take cert.data.uid_size) sb <;>
      simp_all [encodeReport, Body.saveBytes]
  · intro r2 h2
    simp [encodeReport, h2]

theorem verifyPair_signs_body_only_witness :
    verifyPair (fun _ => some ()) (fun _ => some [3]) (fun _ _ _ _ => true)
      ⟨⟨[7, 8], 1⟩⟩
      ⟨⟨[1], [2], [3], [4], [5], [6], ⟨9⟩⟩, 11, 12, 13, ⟨[14], [15]⟩⟩ =
      Except.ok () :=
  ((verifyPair_signs_body_only (fun _ => some ()) (fun _ => some [3])
      (fun _ _ _ _ => true) ⟨⟨[7, 8], 1⟩⟩
      ⟨⟨[1], [2], [3], [4], [5], [6], ⟨9⟩⟩, 11, 12, 13, ⟨[14], [15]⟩⟩ () [3]
      rfl rfl).1).mpr rfl

end Csv
